import Mathlib

/-!
# iSCSI target application and NVMf transport table

A shallow embedding of `app/iscsi_tgt/iscsi_tgt.c` (process bootstrap, option
parsing, the usr1 configuration dump) and of `lib/nvmf/transport.h` (the
transport capability table), followed by the properties proved about them.

Conventions of the embedding:

* the process state is an explicit record `World`, threaded through every
  function; functions defined outside the two files are fields of `Env`
  (their return values) and are recorded in `World.calls` when called;
* `exit` ends the run: the outcome of `main` is `Outcome.exit status`,
  `Outcome.ret rc`, or `Outcome.crash` when a null pointer is passed to
  `strncmp`;
* C `int` values are `Int`, `const char *` values are `Option String`
  (`none` is `NULL`);
* `spdk_startup` and `spdk_iscsi_dump_memory_info` run inside `spdk_app_start`,
  whose effects on the output are not part of the embedding: only the call,
  with `spdk_startup` as its argument, is recorded.
-/

namespace IscsiTgt

/-! ## Data model -/

/-- Functions of the program whose address is stored in a structure or passed
to a library function. -/
inductive Callback
  | spdk_iscsi_shutdown
  | spdk_sigusr1
  | spdk_startup
deriving DecidableEq, Repr

/-- The fields of `struct spdk_app_opts` (declared in `spdk/event.h`) that
`main` reads or writes. -/
structure spdk_app_opts where
  name : Option String
  config_file : Option String
  reactor_mask : Option String
  log_facility : Option String
  tpoint_group_mask : Option String
  instance_id : Int
  shutdown_cb : Option Callback
  usr1_handler : Option Callback
  enable_coredump : Bool
  dpdk_mem_channel : Int
  dpdk_master_core : Int
  dpdk_mem_size : Int
deriving DecidableEq, Repr

/-- The value of `struct spdk_app_opts opts = {}`: every field zero. -/
def spdk_app_opts.zero : spdk_app_opts :=
  { name := none, config_file := none, reactor_mask := none, log_facility := none,
    tpoint_group_mask := none, instance_id := 0, shutdown_cb := none,
    usr1_handler := none, enable_coredump := false, dpdk_mem_channel := 0,
    dpdk_master_core := 0, dpdk_mem_size := 0 }

/-- Calls that leave the two source files, with their arguments. -/
inductive Call
  | spdk_app_opts_init
  | spdk_log_set_trace_flag (flag : Option String)
  | sleep (seconds : Nat)
  | spdk_app_init (opts : spdk_app_opts)
  | spdk_app_start (start_fn : Callback)
  | spdk_app_fini
deriving DecidableEq, Repr

/-- The process state the program can observe or change. -/
structure World where
  /-- Everything written to the standard output so far. -/
  stdout : String
  /-- Everything written to the standard error so far. -/
  stderr : String
  /-- The calls made so far, oldest first. -/
  calls : List Call
  /-- The global `g_flush_timeout` of `iscsi_tgt.c`. -/
  g_flush_timeout : Nat
  /-- The global `spdk_g_notice_stderr_flag` of the log library. -/
  spdk_g_notice_stderr_flag : Int
  /-- The effective running configuration of the application. -/
  running_config : String
  /-- The blocks of the C heap that are allocated and not yet freed. -/
  heap : List String
  /-- The libc global `optind`. -/
  optind : Nat
  /-- The unread option characters of the element `getopt` is reading (its
  `nextchar`). -/
  nextchar : List Char
  /-- The variable `first_nonopt` of `getopt`: the index of the first operand
  it has skipped. -/
  first_nonopt : Nat
  /-- The variable `last_nonopt` of `getopt`: the index after the last operand
  it has skipped. -/
  last_nonopt : Nat
deriving DecidableEq, Repr

/-- What the program takes from its surroundings: build configuration, macros
of headers outside the two files, and the results of library functions. -/
structure Env where
  /-- Whether the build defines `DEBUG`. -/
  DEBUG : Bool
  SPDK_ISCSI_DEFAULT_CONFIG : String
  SPDK_APP_DEFAULT_LOG_FACILITY : String
  /-- The defaults `spdk_app_opts_init` writes into the structure. -/
  spdk_app_opts_init : spdk_app_opts → spdk_app_opts
  /-- The return value of `spdk_log_set_trace_flag(flag)`. -/
  spdk_log_set_trace_flag : Option String → Int
  /-- The libc function `atoi`. -/
  atoi : Option String → Int
  /-- The result of `spdk_app_get_running_config(&config_str, filename)` on a
  running configuration: the return value and the string stored in
  `config_str` (`none` when it is left `NULL`). -/
  spdk_app_get_running_config : String → String → Int × Option String
  /-- The value of `isatty(STDERR_FILENO)`. -/
  isatty_stderr : Bool
  /-- The value of `ttyname(STDERR_FILENO)`: `none` when it returns `NULL`. -/
  ttyname_stderr : Option String
  rte_lcore_count : Nat
  spdk_net_framework_get_name : String
  /-- The return value of `spdk_app_start`, from the state it is called in. -/
  spdk_app_start : World → Int
  /-- The initial value of `spdk_g_notice_stderr_flag`. -/
  notice_stderr_flag_init : Int
  /-- The running configuration of the application. -/
  running_config : String
  /-- Whether the environment variable `POSIXLY_CORRECT` is set: `getopt` then
  stops at the first operand instead of permuting `argv`. -/
  POSIXLY_CORRECT : Bool

def EXIT_SUCCESS : Int := 0

def EXIT_FAILURE : Int := 1

/-- How a run of `main` ends. -/
inductive Outcome
  /-- The process was ended by `exit(status)`. -/
  | exit (status : Int) (w : World)
  /-- The function `main` returned `rc`. -/
  | ret (rc : Int) (w : World)
  /-- The process was killed in `strncmp`, which was given a null pointer. -/
  | crash (w : World)
deriving DecidableEq, Repr

/-- The state the run ended in. -/
def Outcome.world : Outcome → World
  | .exit _ w => w
  | .ret _ w => w
  | .crash w => w

/-- The exit status of the process: the argument of `exit`, or the value
returned by `main`; for a process killed by the signal SIGSEGV, the value a
shell reports, 128 + 11. -/
def Outcome.status : Outcome → Int
  | .exit s _ => s
  | .ret rc _ => rc
  | .crash _ => 139

/-! ## Output -/

/-- `fprintf(stdout, ...)` and `printf(...)` with the formatted text. -/
def World.print (w : World) (text : String) : World :=
  { w with stdout := w.stdout ++ text }

/-- `fprintf(stderr, ...)` with the formatted text. -/
def World.eprint (w : World) (text : String) : World :=
  { w with stderr := w.stderr ++ text }

/-- Record a call that leaves the program. -/
def World.call (w : World) (c : Call) : World :=
  { w with calls := w.calls ++ [c] }

/-! ## `spdk_sigusr1` -/

/-- The three banner lines `spdk_sigusr1` prints before the configuration. -/
def sigusr1_banner : String :=
  "============================\n" ++
  " iSCSI target running config\n" ++
  "=============================\n"

/-- The usr1 handler. `spdk_app_get_running_config` allocates the string it
stores in `config_str`; `free(config_str)` releases it (`free(NULL)` does
nothing). -/
def spdk_sigusr1 (env : Env) (_signo : Int) (w : World) : World :=
  let r := env.spdk_app_get_running_config w.running_config "iscsi.conf"
  let config_str : Option String := r.2
  let w1 : World :=
    match config_str with
    | some s => { w with heap := s :: w.heap }
    | none => w
  let w2 : World :=
    if r.1 < 0 then
      w1.eprint "Error getting config\n"
    else
      let w3 := w1.print "============================\n"
      let w4 := w3.print " iSCSI target running config\n"
      let w5 := w4.print "=============================\n"
      w5.print (config_str.getD "")
  match config_str with
  | some s => { w2 with heap := w2.heap.erase s }
  | none => w2

/-! ## `usage` -/

/-- The text `usage` prints. -/
def usage (env : Env) (executable_name : String) (w : World) : World :=
  let w := w.print (executable_name ++ " [options]\n")
  let w := w.print "options:\n"
  let w := w.print (" -c config  config file (default " ++ env.SPDK_ISCSI_DEFAULT_CONFIG ++ ")\n")
  let w := w.print " -e mask    tracepoint group mask for spdk trace buffers (default 0x0)\n"
  let w := w.print " -m mask    core mask for DPDK\n"
  let w := w.print " -i instance ID\n"
  let w := w.print (" -l facility use specific syslog facility (default " ++
    env.SPDK_APP_DEFAULT_LOG_FACILITY ++ ")\n")
  let w := w.print " -n channel number of memory channels used for DPDK\n"
  let w := w.print " -p core    master (primary) core for DPDK\n"
  let w := w.print " -s size    memory size in MB for DPDK\n"
  let w :=
    if env.DEBUG then
      w.print " -t flag    trace flag (all, net, iscsi, scsi, target, debug)\n"
    else
      w.print " -t flag    trace flag (not supported - must rebuild with CONFIG_DEBUG=y)\n"
  let w := w.print " -v         verbose (enable warnings)\n"
  let w := w.print " -H         show this usage\n"
  let w := w.print " -V         show version\n"
  w.print " -d         disable coredump file enabling\n"

/-- The usage text for the program name `executable_name`, line by line as
the format strings of `usage` give it. -/
def usage_text (env : Env) (executable_name : String) : String :=
  executable_name ++ " [options]\n" ++
  "options:\n" ++
  (" -c config  config file (default " ++ env.SPDK_ISCSI_DEFAULT_CONFIG ++ ")\n") ++
  " -e mask    tracepoint group mask for spdk trace buffers (default 0x0)\n" ++
  " -m mask    core mask for DPDK\n" ++
  " -i instance ID\n" ++
  (" -l facility use specific syslog facility (default " ++
    env.SPDK_APP_DEFAULT_LOG_FACILITY ++ ")\n") ++
  " -n channel number of memory channels used for DPDK\n" ++
  " -p core    master (primary) core for DPDK\n" ++
  " -s size    memory size in MB for DPDK\n" ++
  (if env.DEBUG then " -t flag    trace flag (all, net, iscsi, scsi, target, debug)\n"
   else " -t flag    trace flag (not supported - must rebuild with CONFIG_DEBUG=y)\n") ++
  " -v         verbose (enable warnings)\n" ++
  " -H         show this usage\n" ++
  " -V         show version\n" ++
  " -d         disable coredump file enabling\n"

/-! ## `getopt`

The libc function `getopt`, modelled after the GNU C library for an option
string without a leading `+`, `-` or `:` and without `::`. Unless
`POSIXLY_CORRECT` is set, operands are skipped and the options after them are
still returned (the library moves the operands to the end of `argv`; `main`
reads only `argv[0]`, which is never moved, so the order of the other
elements is not part of the state). With `POSIXLY_CORRECT` the options end at
the first operand. The element `--` ends the options, and an unknown option
character or a missing option argument gives `'?'` and a message on the
standard error. -/

/-- The result of one call of `getopt`. -/
structure GetoptResult where
  /-- The return value: `none` is `-1`. -/
  ch : Option Char
  /-- The libc global `optarg` after the call. -/
  optarg : Option String
  /-- The state after the call. -/
  w : World

/-- Look an option character up in the option string: `none` when it is not
an option, otherwise whether the option takes an argument. -/
def opt_lookup : List Char → Char → Option Bool
  | [], _ => none
  | o :: rest, c =>
    if o = c ∧ c ≠ ':' then some (rest.head? = some ':') else opt_lookup rest c

/-- The program name `argv[0]`. -/
def argv0 (argv : List String) : String :=
  argv.headD ""

/-- Handle the option character `c` of `argv[optind]`; `cs` are the
characters after it in the same element. -/
def getopt_char (argv : List String) (optstring : List Char) (c : Char) (cs : List Char)
    (w : World) : GetoptResult :=
  let next : World := { w with optind := w.optind + 1, nextchar := [] }
  let w1 : World := if cs = [] then next else { w with nextchar := cs }
  match opt_lookup optstring c with
  | none =>
    ⟨some '?', none, w1.eprint (argv0 argv ++ ": invalid option -- '" ++ String.mk [c] ++ "'\n")⟩
  | some false => ⟨some c, none, w1⟩
  | some true =>
    if cs ≠ [] then
      ⟨some c, some (String.mk cs), next⟩
    else
      match argv[w.optind + 1]? with
      | none =>
        ⟨some '?', none,
          next.eprint (argv0 argv ++ ": option requires an argument -- '" ++ String.mk [c] ++ "'\n")⟩
      | some a => ⟨some c, some a, { w with optind := w.optind + 2, nextchar := [] }⟩

/-- The three indices `getopt` keeps between calls. -/
structure Cursor where
  optind : Nat
  first_nonopt : Nat
  last_nonopt : Nat
deriving DecidableEq, Repr

/-- Store the indices of `getopt` in the state. -/
def World.set_cursor (w : World) (c : Cursor) : World :=
  { w with optind := c.optind, first_nonopt := c.first_nonopt, last_nonopt := c.last_nonopt }

/-- The test `NONOPTION_P` of `getopt`: the element does not start with `-`,
or is `-` alone. -/
def nonoption (a : String) : Bool :=
  match a.data with
  | d :: _ :: _ => d != '-'
  | _ => true

/-- The index the loop `while (optind < argc && NONOPTION_P) optind++` stops
at, from `n`. -/
def skip_nonoptions (argv : List String) (n : Nat) : Nat :=
  n + ((argv.drop n).takeWhile nonoption).length

/-- The indices after `exchange`, which moves the options in
`last_nonopt..optind` before the operands in `first_nonopt..last_nonopt`. -/
def Cursor.exchange (c : Cursor) : Cursor :=
  { c with first_nonopt := c.first_nonopt + (c.optind - c.last_nonopt),
           last_nonopt := c.optind }

/-- The first step of `getopt` at a new element: `first_nonopt` and
`last_nonopt` are brought back to `optind` when they are beyond it. -/
def Cursor.clamp (c : Cursor) : Cursor :=
  let c := if c.last_nonopt > c.optind then { c with last_nonopt := c.optind } else c
  if c.first_nonopt > c.optind then { c with first_nonopt := c.optind } else c

/-- The step of `getopt` that permutes: the options just read are exchanged
with the operands skipped before them, and the operands at `optind` are
skipped. -/
def Cursor.permute (argv : List String) (c : Cursor) : Cursor :=
  let c :=
    if c.first_nonopt ≠ c.last_nonopt ∧ c.last_nonopt ≠ c.optind then c.exchange
    else if c.last_nonopt ≠ c.optind then { c with first_nonopt := c.optind }
    else c
  let optind := skip_nonoptions argv c.optind
  { c with optind := optind, last_nonopt := optind }

/-- The step of `getopt` for the element `--`: it is skipped, and every
element after it is an operand. -/
def Cursor.end_of_options (argv : List String) (c : Cursor) : Cursor :=
  if argv[c.optind]? = some "--" then
    let c := { c with optind := c.optind + 1 }
    let c :=
      if c.first_nonopt ≠ c.last_nonopt ∧ c.last_nonopt ≠ c.optind then c.exchange
      else if c.first_nonopt = c.last_nonopt then { c with first_nonopt := c.optind }
      else c
    { c with last_nonopt := argv.length, optind := argv.length }
  else
    c

/-- The option characters of an element of `argv` that is an option: the
first one and those after it. -/
def first_option (a : String) : Option (Char × List Char) :=
  match a.data with
  | d :: x :: xs => if d = '-' then some (x, xs) else none
  | _ => none

/-- The part of `getopt` that advances to the next element of `argv`: the new
indices, and the option characters of the element found, or `none` when the
options have ended (`getopt` returns `-1`, with `optind` at the first operand
skipped, if any). -/
def advance (posix : Bool) (argv : List String) (c : Cursor) :
    Cursor × Option (Char × List Char) :=
  let c := c.clamp
  let c := if posix then c else c.permute argv
  let c := c.end_of_options argv
  match argv[c.optind]? with
  | none =>
    (if c.first_nonopt ≠ c.last_nonopt then { c with optind := c.first_nonopt } else c, none)
  | some a => (c, first_option a)

/-- One call `getopt(argc, argv, optstring)`; `posix` says whether
`POSIXLY_CORRECT` is set. -/
def getopt (posix : Bool) (argv : List String) (optstring : String) (w : World) :
    GetoptResult :=
  match w.nextchar with
  | c :: cs => getopt_char argv optstring.data c cs w
  | [] =>
    match advance posix argv ⟨w.optind, w.first_nonopt, w.last_nonopt⟩ with
    | (c, none) => ⟨none, none, w.set_cursor c⟩
    | (c, some (x, xs)) => getopt_char argv optstring.data x xs (w.set_cursor c)

/-! ## `main` -/

/-- How one execution of the `switch (ch)` statement of `main` ends. -/
inductive SwitchResult
  /-- The case called `exit(status)`. -/
  | exited (status : Int) (w : World)
  /-- The case ended in `break`: the loop goes on with these options. -/
  | next (opts : spdk_app_opts) (w : World)
deriving DecidableEq, Repr

/-- The `switch (ch)` statement in the loop of `main`, for the option
character `ch` and the value of `optarg` that `getopt` returned. -/
def main_switch (env : Env) (argv : List String) (ch : Char) (optarg : Option String)
    (opts : spdk_app_opts) (w : World) : SwitchResult :=
  if ch = 'd' then
    .next { opts with enable_coredump := false } w
  else if ch = 'c' then
    .next { opts with config_file := optarg } w
  else if ch = 'i' then
    .next { opts with instance_id := env.atoi optarg } w
  else if ch = 'l' then
    .next { opts with log_facility := optarg } w
  else if ch = 't' then
    let rc := env.spdk_log_set_trace_flag optarg
    let w := w.call (.spdk_log_set_trace_flag optarg)
    if rc < 0 then
      let w := w.eprint "unknown flag\n"
      let w := usage env (argv0 argv) w
      .exited EXIT_FAILURE w
    else if !env.DEBUG then
      let w := w.eprint (argv0 argv ++ " must be built with CONFIG_DEBUG=y for -t flag\n")
      let w := usage env (argv0 argv) w
      .exited EXIT_FAILURE w
    else
      .next opts w
  else if ch = 'e' then
    .next { opts with tpoint_group_mask := optarg } w
  else if ch = 'q' then
    .next opts { w with spdk_g_notice_stderr_flag := 0 }
  else if ch = 'm' then
    .next { opts with reactor_mask := optarg } w
  else if ch = 'n' then
    .next { opts with dpdk_mem_channel := env.atoi optarg } w
  else if ch = 'p' then
    .next { opts with dpdk_master_core := env.atoi optarg } w
  else if ch = 's' then
    .next { opts with dpdk_mem_size := env.atoi optarg } w
  else
    -- case 'H': default:
    .exited EXIT_SUCCESS (usage env (argv0 argv) w)

/-- How the option loop of `main` ends. -/
inductive LoopResult
  /-- A case of the switch called `exit(status)`. -/
  | exited (status : Int) (w : World)
  /-- The call `getopt` returned `-1`: the loop is left with these options. -/
  | finished (opts : spdk_app_opts) (w : World)
deriving DecidableEq, Repr

/-- The option string `main` passes to `getopt`. -/
def optstring : String := "c:de:i:l:m:n:p:qs:t:H"

/-- The `while ((ch = getopt(argc, argv, optstring)) != -1)` loop of `main`.
The first argument bounds the number of iterations; `none` means the bound
was reached. -/
def main_loop (env : Env) (argv : List String) :
    Nat → spdk_app_opts → World → Option LoopResult
  | 0, _, _ => none
  | fuel + 1, opts, w =>
    let r := getopt env.POSIXLY_CORRECT argv optstring w
    match r.ch with
    | none => some (.finished opts r.w)
    | some ch =>
      match main_switch env argv ch r.optarg opts r.w with
      | .exited status w => some (.exited status w)
      | .next opts w => main_loop env argv fuel opts w

/-- The console warning between the option loop and `spdk_app_init`: `none`
when `ttyname` returns `NULL`, which `main` passes to `strncmp` unchecked. -/
def tty_warning (env : Env) (w : World) : Option World :=
  if w.spdk_g_notice_stderr_flag = 1 ∧ env.isatty_stderr = true then
    match env.ttyname_stderr with
    | none => none
    | some name =>
      if "/dev/tty".data.isPrefixOf name.data = true then
        let w := w.print "Warning: printing stderr to console terminal without -q option specified.\n"
        let w := w.print "Suggest using -q to disable logging to stderr and monitor syslog, or\n"
        let w := w.print "redirect stderr to a file.\n"
        let w := w.print "(Delaying for 10 seconds...)\n"
        some (w.call (.sleep 10))
      else
        some w
  else
    some w

/-- The options `main` passes to `spdk_app_init`. -/
def final_opts (opts : spdk_app_opts) : spdk_app_opts :=
  let opts := { opts with shutdown_cb := some Callback.spdk_iscsi_shutdown }
  { opts with usr1_handler := some Callback.spdk_sigusr1 }

/-- The part of `main` after the option loop. -/
def main_tail (env : Env) (opts : spdk_app_opts) (w : World) : Outcome :=
  match tty_warning env w with
  | none => .crash w
  | some w =>
    let w := { w with optind := 1 }
    let opts := final_opts opts
    let w := w.call (.spdk_app_init opts)
    let w := w.print ("Total cores available: " ++ toString env.rte_lcore_count ++ "\n")
    let w := w.print ("Using net framework " ++ env.spdk_net_framework_get_name ++ "\n")
    let rc := env.spdk_app_start w
    let w := w.call (.spdk_app_start Callback.spdk_startup)
    let w := w.call .spdk_app_fini
    .ret rc w

/-- The state a process starts in. -/
def initial_world (env : Env) : World :=
  { stdout := "", stderr := "", calls := [], g_flush_timeout := 0,
    spdk_g_notice_stderr_flag := env.notice_stderr_flag_init,
    running_config := env.running_config, heap := [], optind := 1, nextchar := [],
    first_nonopt := 1, last_nonopt := 1 }

/-- A bound on the number of `getopt` calls that return an option. -/
def getopt_fuel (argv : List String) : Nat :=
  (argv.map fun a => a.data.length + 1).sum + 1

/-- The options before the loop: the library defaults, then the two fields
`main` sets. -/
def initial_opts (env : Env) : spdk_app_opts :=
  let opts := env.spdk_app_opts_init spdk_app_opts.zero
  let opts := { opts with config_file := some env.SPDK_ISCSI_DEFAULT_CONFIG }
  { opts with name := some "iscsi" }

/-- The function `main`, run on `argv` from the initial state. -/
def main (env : Env) (argv : List String) : Option Outcome :=
  let w := (initial_world env).call .spdk_app_opts_init
  match main_loop env argv (getopt_fuel argv) (initial_opts env) w with
  | none => none
  | some (.exited status w) => some (.exit status w)
  | some (.finished opts w) => some (main_tail env opts w)

/-- Whether a call is one of `spdk_app_init`, `spdk_app_start`,
`spdk_app_fini`. -/
def Call.is_app : Call → Bool
  | .spdk_app_init _ => true
  | .spdk_app_start _ => true
  | .spdk_app_fini => true
  | _ => false

/-- The calls a state can hold while the option loop runs: the call of
`spdk_app_opts_init`, then calls of `spdk_log_set_trace_flag` that did not end
the process (a build with `DEBUG`, a status that is not negative). -/
def calls_part (env : Env) (calls : List Call) : Prop :=
  ∃ fs : List (Option String),
    calls = .spdk_app_opts_init :: fs.map .spdk_log_set_trace_flag ∧
    ∀ f ∈ fs, env.DEBUG = true ∧ 0 ≤ env.spdk_log_set_trace_flag f

/-- The states at the head of the option loop: nothing has been written, and
the calls are those of `calls_part`. -/
def loop_inv (env : Env) (w : World) : Prop :=
  w.stdout = "" ∧ w.stderr = "" ∧ calls_part env w.calls

/-- The message case `'t'` prints before the usage text when it ends the
process on the flag `f`. -/
def trace_flag_message (env : Env) (argv : List String) (f : Option String) : String :=
  if env.spdk_log_set_trace_flag f < 0 then "unknown flag\n"
  else argv0 argv ++ " must be built with CONFIG_DEBUG=y for -t flag\n"

/-- A state in which the process is ended with status `st`: either by
`case 'H': default:` (`EXIT_SUCCESS`) or by `case 't'` (a last call of
`spdk_log_set_trace_flag`, the message on the standard error, the usage text
on the standard output, `EXIT_FAILURE`). -/
def exit_ok (env : Env) (argv : List String) (st : Int) (w : World) : Prop :=
  (st = EXIT_SUCCESS ∧ calls_part env w.calls) ∨
  (st = EXIT_FAILURE ∧ ∃ (fs : List (Option String)) (f : Option String),
    w.calls = .spdk_app_opts_init :: (fs ++ [f]).map .spdk_log_set_trace_flag ∧
    (∀ g ∈ fs, env.DEBUG = true ∧ 0 ≤ env.spdk_log_set_trace_flag g) ∧
    (env.spdk_log_set_trace_flag f < 0 ∨ env.DEBUG = false) ∧
    w.stdout = usage_text env (argv0 argv) ∧
    w.stderr = trace_flag_message env argv f)

/-- The results the switch can have from a state that satisfies `loop_inv`. -/
def switch_ok (env : Env) (argv : List String) : SwitchResult → Prop
  | .next _ w => loop_inv env w
  | .exited st w => exit_ok env argv st w

/-- The results the option loop can have. -/
def loop_ok (env : Env) (argv : List String) : LoopResult → Prop
  | .finished _ w => loop_inv env w
  | .exited st w => exit_ok env argv st w

/-- An environment to run `main` in: `spdk_log_set_trace_flag` accepts the
flags of the usage text, and `spdk_app_start` returns `start_rc`. -/
def sample_env (debug : Bool) (start_rc : Int) : Env :=
  { DEBUG := debug
    SPDK_ISCSI_DEFAULT_CONFIG := "/usr/local/etc/spdk/iscsi.conf"
    SPDK_APP_DEFAULT_LOG_FACILITY := "local7"
    spdk_app_opts_init := fun o => { o with enable_coredump := true }
    spdk_log_set_trace_flag := fun f =>
      if f ∈ [some "all", some "net", some "iscsi", some "scsi", some "target", some "debug"]
      then 0 else -1
    atoi := fun _ => 0
    spdk_app_get_running_config := fun cfg _ => (0, some cfg)
    isatty_stderr := false
    ttyname_stderr := some "/dev/pts/0"
    rte_lcore_count := 4
    spdk_net_framework_get_name := "posix"
    spdk_app_start := fun _ => start_rc
    notice_stderr_flag_init := 1
    running_config := "[Global]\n"
    POSIXLY_CORRECT := false }

/-- An environment in which the standard error is a terminal whose name
`ttyname` cannot find: it returns `NULL`. -/
def null_tty_env : Env :=
  { sample_env false 0 with isatty_stderr := true, ttyname_stderr := none }

end IscsiTgt

namespace Nvmf

/-! ## The transport capability table of `lib/nvmf/transport.h` -/

/-- The C types that occur in the declaration of `struct spdk_nvmf_transport`. -/
inductive CType
  | int
  | void
  /-- The type `const char *`. -/
  | const_char_ptr
  /-- The type `struct tag *`. -/
  | struct_ptr (tag : String)
deriving DecidableEq, Repr

/-- A member of a C structure. -/
inductive Member
  /-- A data member `type name;`. -/
  | data (name : String) (type : CType)
  /-- A pointer to function `ret (*name)(params);`; `(void)` is `[]`. -/
  | fn_ptr (name : String) (ret : CType) (params : List CType)
deriving DecidableEq, Repr

/-- The members of `struct spdk_nvmf_transport`, in the order of the
declaration. -/
def spdk_nvmf_transport_members : List Member :=
  [ .data "name" .const_char_ptr,
    .fn_ptr "transport_init" .int [],
    .fn_ptr "transport_fini" .int [],
    .fn_ptr "transport_start" .int [],
    .fn_ptr "transport_stop" .void [],
    .fn_ptr "req_complete" .int [.struct_ptr "spdk_nvmf_request"],
    .fn_ptr "conn_fini" .void [.struct_ptr "spdk_nvmf_conn"],
    .fn_ptr "conn_poll" .int [.struct_ptr "spdk_nvmf_conn"],
    .fn_ptr "listen_addr_discover" .void
      [.struct_ptr "spdk_nvmf_listen_addr", .struct_ptr "spdk_nvmf_discovery_log_page_entry"] ]

/-- The same structure as a record of functions. The four structures the
header only declares are type parameters; `σ` is the state the functions of a
transport work on, and a function returning `int` returns its status together
with the new state. -/
structure spdk_nvmf_transport (σ request conn listen_addr entry : Type) where
  name : String
  transport_init : σ → Int × σ
  transport_fini : σ → Int × σ
  transport_start : σ → Int × σ
  transport_stop : σ → σ
  req_complete : request → σ → Int × σ
  conn_fini : conn → σ → σ
  conn_poll : conn → σ → Int × σ
  listen_addr_discover : listen_addr → entry → σ → entry × σ

/-! ### The table as the specification words it -/

/-- What an operation of the specification's table takes. -/
inductive SpecParam
  | request
  | connection
  | listen_address
  | out_entry
deriving DecidableEq, Repr

/-- What an entry of the specification's table gives back: `-> status`, or
nothing. -/
inductive SpecResult
  | status
  | nothing
deriving DecidableEq, Repr

/-- An entry of the specification's table. -/
inductive SpecEntry
  /-- The line `name : unique string`. -/
  | unique_string (name : String)
  /-- An operation line `name(params) -> result`. -/
  | operation (name : String) (params : List SpecParam) (result : SpecResult)
deriving DecidableEq, Repr

/-- The transport capability table of the specification, line by line. -/
def spec_capability_table : List SpecEntry :=
  [ .unique_string "name",
    .operation "transport_init" [] .status,
    .operation "transport_fini" [] .status,
    .operation "transport_start" [] .status,
    .operation "transport_stop" [] .nothing,
    .operation "req_complete" [.request] .status,
    .operation "conn_fini" [.connection] .nothing,
    .operation "conn_poll" [.connection] .status,
    .operation "listen_addr_discover" [.listen_address, .out_entry] .nothing ]

/-- The specification's word for a parameter type of the header. -/
def spec_param : CType → Option SpecParam
  | .struct_ptr tag =>
    if tag = "spdk_nvmf_request" then some .request
    else if tag = "spdk_nvmf_conn" then some .connection
    else if tag = "spdk_nvmf_listen_addr" then some .listen_address
    else if tag = "spdk_nvmf_discovery_log_page_entry" then some .out_entry
    else none
  | _ => none

/-- The specification's word for a return type of the header. -/
def spec_result : CType → Option SpecResult
  | .int => some .status
  | .void => some .nothing
  | _ => none

/-- The table entry a member of the structure stands for, if any. -/
def spec_entry : Member → Option SpecEntry
  | .data name .const_char_ptr => some (.unique_string name)
  | .data _ _ => none
  | .fn_ptr name ret params =>
    match spec_result ret, params.mapM spec_param with
    | some r, some ps => some (.operation name ps r)
    | _, _ => none

/-! ## Registry initialisation -/

section Registry

variable {σ request conn listen_addr entry : Type}

/-- A call the registry makes into a transport; the number is the position of
the transport in registration order, counted from 1. -/
inductive RegistryEvent
  | transport_init (k : Nat)
  | transport_fini (k : Nat)
deriving DecidableEq, Repr

/-- The state of the registry during initialisation. -/
structure InitState (σ request conn listen_addr entry : Type) where
  /-- The state the functions of the transports work on. -/
  fabric : σ
  /-- The transports that are initialised: `transport_init` succeeded and
  `transport_fini` has not been invoked since. Most recent first, each with
  its position. -/
  live : List (Nat × spdk_nvmf_transport σ request conn listen_addr entry)
  /-- The calls made so far, oldest first. -/
  events : List RegistryEvent

/-- A status reports failure when it is negative, as in the callers of
`spdk_log_set_trace_flag` and `spdk_app_get_running_config`. -/
def failed (rc : Int) : Bool :=
  decide (rc < 0)

/-- Modelled from the spec: the unwind of `init_all` (lib/nvmf/transport.c is
not among the sources): `transport_fini` is invoked for every transport that
is initialised, the most recent first. -/
def unwind :
    List (Nat × spdk_nvmf_transport σ request conn listen_addr entry) →
    InitState σ request conn listen_addr entry → InitState σ request conn listen_addr entry
  | [], st => { st with live := [] }
  | (k, t) :: rest, st =>
    let r := t.transport_fini st.fabric
    unwind rest { fabric := r.2, live := rest, events := st.events ++ [.transport_fini k] }

/-- Modelled from the spec: the loop of `init_all` from position `k` on:
`transport_init` is invoked on every descriptor in registration order; when
one fails, the initialised transports are unwound and the failing status is
returned. -/
def init_from :
    Nat → List (spdk_nvmf_transport σ request conn listen_addr entry) →
    InitState σ request conn listen_addr entry →
    Int × InitState σ request conn listen_addr entry
  | _, [], st => (0, st)
  | k, t :: rest, st =>
    let r := t.transport_init st.fabric
    let st1 : InitState σ request conn listen_addr entry :=
      { fabric := r.2, live := st.live, events := st.events ++ [.transport_init k] }
    if failed r.1 then
      (r.1, unwind st1.live st1)
    else
      init_from (k + 1) rest { st1 with live := (k, t) :: st1.live }

/-- Modelled from the spec: `spdk_nvmf_transport_init`, the `init_all` of the
specification (the header only declares it; lib/nvmf/transport.c is not among
the sources), on the registered transports and a state in which none is
initialised. -/
def spdk_nvmf_transport_init (transports : List (spdk_nvmf_transport σ request conn listen_addr entry))
    (fabric : σ) : Int × InitState σ request conn listen_addr entry :=
  init_from 1 transports { fabric := fabric, live := [], events := [] }

/-- Run `transport_init` of each transport in order: the state reached when
all of them succeed, `none` when one fails. -/
def init_prefix_ok :
    List (spdk_nvmf_transport σ request conn listen_addr entry) → σ → Option σ
  | [], s => some s
  | t :: rest, s =>
    let r := t.transport_init s
    if failed r.1 then none else init_prefix_ok rest r.2

end Registry

/-- A transport to run the registry on: its functions log their name in the
state, and `transport_init` returns `init_rc`. -/
def sample_transport (name : String) (init_rc : Int) :
    spdk_nvmf_transport (List String) Unit Unit Unit Unit :=
  { name := name
    transport_init := fun s => (init_rc, s ++ [name ++ ".transport_init"])
    transport_fini := fun s => (0, s ++ [name ++ ".transport_fini"])
    transport_start := fun s => (0, s ++ [name ++ ".transport_start"])
    transport_stop := fun s => s ++ [name ++ ".transport_stop"]
    req_complete := fun _ s => (0, s)
    conn_fini := fun _ s => s
    conn_poll := fun _ s => (0, s)
    listen_addr_discover := fun _ e s => (e, s) }

/-! ## Completion pipeline -/

/-- Modelled from the spec: the status of a Request (section 3). -/
inductive RequestStatus
  | Pending
  | InFlight
  | Completed
  | Failed
deriving DecidableEq, Repr

/-- Whether a status is terminal. -/
def RequestStatus.terminal : RequestStatus → Bool
  | .Completed => true
  | .Failed => true
  | _ => false

/-- Modelled from the spec: a Request (section 3): identity, back-reference
to its connection, payload buffer and status. -/
structure Request where
  id : Nat
  conn : Nat
  payload : List Nat
  status : RequestStatus
deriving DecidableEq, Repr

/-- Modelled from the spec: the observable side of the completion pipeline
(section 4.3): the notifications delivered and the log. -/
structure Pipeline where
  /-- The completion notifications delivered so far: request and status. -/
  delivered : List (Nat × RequestStatus)
  /-- The log. -/
  log : List String
deriving DecidableEq, Repr

/-- Modelled from the spec: `req_complete` (section 4.3; the transports that
implement it are not among the sources). `ok` is what the fabric reports. A
request that is not terminal becomes Completed or Failed and its completion
notification is invoked; an invocation on a terminal request is rejected and
logged. -/
def req_complete (ok : Bool) (req : Request) (p : Pipeline) : Int × Request × Pipeline :=
  if req.status.terminal then
    (-1, req, { p with log := p.log ++ ["req_complete: request already completed"] })
  else
    let st := if ok then RequestStatus.Completed else RequestStatus.Failed
    (if ok then 0 else -1, { req with status := st },
      { p with delivered := p.delivered ++ [(req.id, st)] })

/-- A sequence of invocations of `req_complete` on one request: the statuses
returned, and the request and pipeline afterwards. -/
def req_complete_all : List Bool → Request → Pipeline → List Int × Request × Pipeline
  | [], req, p => ([], req, p)
  | ok :: oks, req, p =>
    let r := req_complete ok req p
    let rest := req_complete_all oks r.2.1 r.2.2
    (r.1 :: rest.1, rest.2)

end Nvmf

/-! # Properties -/

namespace IscsiTgt

/-! ## The option loop ends -/

theorem ite_cases {α : Type} (P : α → Prop) (c : Prop) [Decidable c] (a b : α)
    (ha : c → P a) (hb : ¬ c → P b) : P (if c then a else b) := by
  by_cases h : c
  · rw [if_pos h]; exact ha h
  · rw [if_neg h]; exact hb h

theorem usage_calls (env : Env) (name : String) (w : World) :
    (usage env name w).calls = w.calls := by
  unfold usage
  split_ifs <;> rfl

theorem usage_stderr (env : Env) (name : String) (w : World) :
    (usage env name w).stderr = w.stderr := by
  unfold usage
  split_ifs <;> rfl

theorem usage_stdout (env : Env) (name : String) (w : World) :
    (usage env name w).stdout = w.stdout ++ usage_text env name := by
  unfold usage usage_text
  cases env.DEBUG <;> simp [World.print, String.append_assoc]

theorem getopt_char_out (argv : List String) (os : List Char) (c : Char) (cs : List Char)
    (w : World) :
    (getopt_char argv os c cs w).w.calls = w.calls ∧
    (getopt_char argv os c cs w).w.stdout = w.stdout ∧
    ((getopt_char argv os c cs w).ch ≠ some '?' →
      (getopt_char argv os c cs w).w.stderr = w.stderr) := by
  unfold getopt_char
  cases cs <;> cases opt_lookup os c with
  | none => simp [World.eprint]
  | some b =>
    cases b
    · simp
    · simp only [ne_eq, not_true_eq_false, if_false]
      cases argv[w.optind + 1]? <;> simp [World.eprint]

theorem getopt_out (posix : Bool) (argv : List String) (s : String) (w : World) :
    (getopt posix argv s w).w.calls = w.calls ∧
    (getopt posix argv s w).w.stdout = w.stdout ∧
    ((getopt posix argv s w).ch ≠ some '?' → (getopt posix argv s w).w.stderr = w.stderr) := by
  unfold getopt
  cases hn : w.nextchar with
  | cons c cs => exact getopt_char_out ..
  | nil =>
    cases hadv : advance posix argv ⟨w.optind, w.first_nonopt, w.last_nonopt⟩ with
    | mk c1 o =>
      cases o with
      | none => exact ⟨rfl, rfl, fun _ => rfl⟩
      | some p =>
        obtain ⟨x, xs⟩ := p
        exact getopt_char_out argv s.data x xs (w.set_cursor c1)

theorem ne_question {ch c : Char} (h : ch = c) (hc : c ≠ '?') : ch ≠ '?' :=
  h ▸ hc

theorem main_switch_ok {env : Env} {argv : List String} (ch : Char) (optarg : Option String)
    (opts : spdk_app_opts) {w : World} (hc : calls_part env w.calls)
    (hq : ch ≠ '?' → w.stdout = "" ∧ w.stderr = "") :
    switch_ok env argv (main_switch env argv ch optarg opts w) := by
  unfold main_switch
  iterate 4
    refine ite_cases (switch_ok env argv) _ _ _
      (fun h => ⟨(hq (ne_question h (by decide))).1, (hq (ne_question h (by decide))).2, hc⟩)
      (fun _ => ?_)
  refine ite_cases (switch_ok env argv) _ _ _ (fun ht => ?_) (fun _ => ?_)
  · have hq1 := hq (ne_question ht (by decide))
    obtain ⟨fs, hfs, hall⟩ := hc
    have hcalls : ∀ msg, (usage env (argv0 argv)
        ((w.call (.spdk_log_set_trace_flag optarg)).eprint msg)).calls =
        .spdk_app_opts_init :: (fs ++ [optarg]).map .spdk_log_set_trace_flag := by
      intro msg
      rw [usage_calls]
      simp [World.eprint, World.call, hfs]
    have hout : ∀ msg, (usage env (argv0 argv)
        ((w.call (.spdk_log_set_trace_flag optarg)).eprint msg)).stdout =
        usage_text env (argv0 argv) := by
      intro msg
      rw [usage_stdout]
      simp [World.eprint, World.call, hq1.1]
    have herr : ∀ msg, (usage env (argv0 argv)
        ((w.call (.spdk_log_set_trace_flag optarg)).eprint msg)).stderr = msg := by
      intro msg
      rw [usage_stderr]
      simp [World.eprint, World.call, hq1.2]
    refine ite_cases (switch_ok env argv) _ _ _ (fun h6 => ?_) (fun h6 => ?_)
    · -- the flag is rejected
      refine Or.inr ⟨rfl, fs, optarg, hcalls _, hall, Or.inl h6, hout _, ?_⟩
      rw [herr]
      simp [trace_flag_message, h6]
    · refine ite_cases (switch_ok env argv) _ _ _ (fun h7 => ?_) (fun h7 => ?_)
      · -- the build has no DEBUG
        refine Or.inr ⟨rfl, fs, optarg, hcalls _, hall, Or.inr (by simpa using h7), hout _, ?_⟩
        rw [herr]
        simp [trace_flag_message, h6]
      · -- the flag is accepted in a build with DEBUG
        refine ⟨hq1.1, hq1.2, fs ++ [optarg], by simp [World.call, hfs], ?_⟩
        intro g hg
        simp only [List.mem_append, List.mem_singleton] at hg
        rcases hg with hg | rfl
        · exact hall g hg
        · exact ⟨by simpa using h7, not_lt.mp h6⟩
  iterate 6
    refine ite_cases (switch_ok env argv) _ _ _
      (fun h => ⟨(hq (ne_question h (by decide))).1, (hq (ne_question h (by decide))).2, hc⟩)
      (fun _ => ?_)
  exact Or.inl ⟨rfl, by rw [usage_calls]; exact hc⟩

theorem main_loop_ok (env : Env) (argv : List String) :
    ∀ (fuel : Nat) (opts : spdk_app_opts) (w : World) (res : LoopResult),
      loop_inv env w → main_loop env argv fuel opts w = some res → loop_ok env argv res := by
  intro fuel
  induction fuel with
  | zero => intro opts w res _ h; simp [main_loop] at h
  | succ n ih =>
    intro opts w res hw h
    simp only [main_loop] at h
    obtain ⟨hcalls, hout, herr⟩ := getopt_out env.POSIXLY_CORRECT argv optstring w
    obtain ⟨hw1, hw2, hw3⟩ := hw
    cases hch : (getopt env.POSIXLY_CORRECT argv optstring w).ch with
    | none =>
      simp only [hch, Option.some.injEq] at h
      subst h
      refine ⟨hout.trans hw1, (herr ?_).trans hw2, hcalls ▸ hw3⟩
      rw [hch]
      simp
    | some ch =>
      simp only [hch] at h
      have hsw := @main_switch_ok env argv ch
        (getopt env.POSIXLY_CORRECT argv optstring w).optarg opts _ (hcalls ▸ hw3)
        (fun hne => ⟨hout.trans hw1, (herr (by rw [hch]; simpa using hne)).trans hw2⟩)
      cases hs : main_switch env argv ch (getopt env.POSIXLY_CORRECT argv optstring w).optarg
          opts (getopt env.POSIXLY_CORRECT argv optstring w).w with
      | exited st w1 =>
        rw [hs] at hsw h
        simp only [Option.some.injEq] at h
        subst h
        exact hsw
      | next o w1 =>
        rw [hs] at hsw h
        exact ih o w1 res hsw h

theorem loop_inv_initial (env : Env) :
    loop_inv env ((initial_world env).call .spdk_app_opts_init) :=
  ⟨rfl, rfl, [], rfl, fun _ h => by cases h⟩

theorem calls_part_no_app {env : Env} {calls : List Call} (hc : calls_part env calls) :
    calls.filter Call.is_app = [] := by
  obtain ⟨fs, rfl, -⟩ := hc
  rw [List.filter_eq_nil_iff]
  intro c hc
  simp only [List.mem_cons, List.mem_map] at hc
  rcases hc with rfl | ⟨f, -, rfl⟩ <;> simp [Call.is_app]

theorem tty_warning_calls {env : Env} {w wt : World} (h : tty_warning env w = some wt) :
    wt.calls = w.calls ∨ wt.calls = w.calls ++ [.sleep 10] := by
  unfold tty_warning at h
  split at h
  · split at h
    · cases h
    · split at h
      · simp only [Option.some.injEq] at h
        subst h
        exact Or.inr rfl
      · simp only [Option.some.injEq] at h
        subst h
        exact Or.inl rfl
  · simp only [Option.some.injEq] at h
    subst h
    exact Or.inl rfl

theorem tty_warning_ok {env : Env} {w wt : World} (h : tty_warning env w = some wt)
    (hw : calls_part env w.calls) :
    wt.calls.filter Call.is_app = [] ∧
    ∀ f, Call.spdk_log_set_trace_flag f ∈ wt.calls →
      Call.spdk_log_set_trace_flag f ∈ w.calls := by
  rcases tty_warning_calls h with h1 | h1 <;> rw [h1]
  · exact ⟨calls_part_no_app hw, fun _ hf => hf⟩
  · refine ⟨by simp [calls_part_no_app hw, Call.is_app], fun f hf => ?_⟩
    simpa using hf

/-- C2: when `spdk_app_get_running_config` succeeds with the string `s`,
`spdk_sigusr1` appends the banner followed by `s` to the standard output and
changes nothing else: the standard error, `g_flush_timeout`, the running
configuration, the heap and every other component of the state are as
before. -/
theorem spdk_sigusr1_only_prints (env : Env) (signo : Int) (w : World) (rc : Int) (s : String)
    (hcfg : env.spdk_app_get_running_config w.running_config "iscsi.conf" = (rc, some s))
    (hrc : 0 ≤ rc) :
    spdk_sigusr1 env signo w = { w with stdout := w.stdout ++ (sigusr1_banner ++ s) } ∧
    (spdk_sigusr1 env signo w).stderr = w.stderr ∧
    (spdk_sigusr1 env signo w).g_flush_timeout = w.g_flush_timeout ∧
    (spdk_sigusr1 env signo w).running_config = w.running_config := by
  have hnot : ¬ rc < 0 := not_lt.mpr hrc
  have key : spdk_sigusr1 env signo w =
      { w with stdout := w.stdout ++ (sigusr1_banner ++ s) } := by
    simp [spdk_sigusr1, hcfg, hnot, World.print, sigusr1_banner, String.append_assoc]
  rw [key]
  exact ⟨rfl, rfl, rfl, rfl⟩

/-- The handler on the initial state of the sample environment. -/
theorem spdk_sigusr1_only_prints_witness :
    spdk_sigusr1 (sample_env false 0) 10 (initial_world (sample_env false 0)) =
      { initial_world (sample_env false 0) with
        stdout := "" ++ (sigusr1_banner ++ "[Global]\n") } ∧
    (spdk_sigusr1 (sample_env false 0) 10 (initial_world (sample_env false 0))).stderr = "" ∧
    (spdk_sigusr1 (sample_env false 0) 10 (initial_world (sample_env false 0))).g_flush_timeout = 0 ∧
    (spdk_sigusr1 (sample_env false 0) 10 (initial_world (sample_env false 0))).running_config =
      "[Global]\n" :=
  spdk_sigusr1_only_prints (sample_env false 0) 10 (initial_world (sample_env false 0)) 0
    "[Global]\n" rfl (by decide)

/-! ## Options the parser does not know -/

/-- A run of `main` whose first call of `getopt` gives an option on which the
switch calls `exit`. -/
theorem main_first_exit (env : Env) (argv : List String) (r : GetoptResult) (ch : Char)
    (st : Int) (w1 : World)
    (hg : getopt env.POSIXLY_CORRECT argv optstring
      ((initial_world env).call .spdk_app_opts_init) = r)
    (hch : r.ch = some ch)
    (hs : main_switch env argv ch r.optarg (initial_opts env) r.w = .exited st w1) :
    main env argv = some (.exit st w1) := by
  unfold main
  simp only [getopt_fuel, main_loop, hg, hch, hs]

/-- The first call of `getopt` on a command line whose only argument is an
option character that is not in the option string. -/
theorem getopt_unknown (env : Env) (x : Char) (hx : opt_lookup optstring.data x = none)
    (hd : x ≠ '-') :
    getopt env.POSIXLY_CORRECT ["iscsi_tgt", String.mk ['-', x]] optstring
        ((initial_world env).call .spdk_app_opts_init) =
      ⟨some '?', none,
        { (initial_world env).call .spdk_app_opts_init with optind := 2 }.eprint
          ("iscsi_tgt: invalid option -- '" ++ String.mk [x] ++ "'\n")⟩ := by
  have hadv : advance env.POSIXLY_CORRECT ["iscsi_tgt", String.mk ['-', x]] ⟨1, 1, 1⟩ =
      (⟨1, 1, 1⟩, some (x, [])) := by
    have hne : ¬ (String.mk ['-', x] = "--") := by
      intro h
      have h1 : ['-', x] = ['-', '-'] := congrArg String.data h
      simp at h1
      exact hd h1
    have hskip : skip_nonoptions ["iscsi_tgt", String.mk ['-', x]] 1 = 1 := by
      simp [skip_nonoptions, nonoption]
    cases env.POSIXLY_CORRECT <;>
      simp [advance, Cursor.clamp, Cursor.permute, Cursor.end_of_options, hskip, hne,
        first_option]
  simp only [getopt, initial_world, World.call, hadv, getopt_char, hx]
  rfl

/-- C3: on the command line `iscsi_tgt -x`, whose option letter is not in the
option string, `getopt` reports the letter on the standard error, `main`
prints the usage text and ends the process with `exit(EXIT_SUCCESS)`: the
exit status is 0. -/
theorem main_unknown_option_exit_status (env : Env) :
    opt_lookup optstring.data 'x' = none ∧
    main env ["iscsi_tgt", "-x"] =
      some (.exit EXIT_SUCCESS
        (usage env "iscsi_tgt"
          ({ (initial_world env).call .spdk_app_opts_init with optind := 2 }.eprint
            "iscsi_tgt: invalid option -- 'x'\n"))) ∧
    (main env ["iscsi_tgt", "-x"]).map Outcome.status = some 0 := by
  have hmain := main_first_exit env ["iscsi_tgt", "-x"] _ '?' EXIT_SUCCESS _
    (getopt_unknown env 'x' (by decide) (by decide)) rfl rfl
  exact ⟨by decide, hmain, by rw [hmain]; rfl⟩

/-- C6: the options `-v` and `-V` of the usage text are not in the option
string of `main`: on `iscsi_tgt -v` and on `iscsi_tgt -V`, `getopt` reports an
invalid option, and `main` prints the usage text and ends the process with
`EXIT_SUCCESS`; neither `spdk_app_init` nor any other function is called
after `spdk_app_opts_init`. The other documented options are in the option
string. -/
theorem main_v_options_not_accepted (env : Env) :
    opt_lookup optstring.data 'v' = none ∧ opt_lookup optstring.data 'V' = none ∧
    main env ["iscsi_tgt", "-v"] =
      some (.exit EXIT_SUCCESS
        (usage env "iscsi_tgt"
          ({ (initial_world env).call .spdk_app_opts_init with optind := 2 }.eprint
            "iscsi_tgt: invalid option -- 'v'\n"))) ∧
    main env ["iscsi_tgt", "-V"] =
      some (.exit EXIT_SUCCESS
        (usage env "iscsi_tgt"
          ({ (initial_world env).call .spdk_app_opts_init with optind := 2 }.eprint
            "iscsi_tgt: invalid option -- 'V'\n"))) ∧
    ("cemilnpst".data.map (opt_lookup optstring.data)).all (· = some true) = true ∧
    ("Hd".data.map (opt_lookup optstring.data)).all (· = some false) = true := by
  have hv := main_first_exit env ["iscsi_tgt", "-v"] _ '?' EXIT_SUCCESS _
    (getopt_unknown env 'v' (by decide) (by decide)) rfl rfl
  have hV := main_first_exit env ["iscsi_tgt", "-V"] _ '?' EXIT_SUCCESS _
    (getopt_unknown env 'V' (by decide) (by decide)) rfl rfl
  exact ⟨by decide, by decide, hv, hV, by decide, by decide⟩

/-! ## The option `-t` -/

/-- When the option loop of `main` ends without `exit`, with the options
`opts` in the state `wl`, and the console check does not pass a null pointer
to `strncmp` (it gives the state `wt`), `main` returns the value
`spdk_app_start` returned, and the calls of `spdk_app_init`, `spdk_app_start`
and `spdk_app_fini` in the whole run are exactly one of each, in this order;
`spdk_app_init` receives `opts` with `shutdown_cb = spdk_iscsi_shutdown` and
`usr1_handler = spdk_sigusr1`. -/
theorem main_runs_app_once (env : Env) (argv : List String) (opts : spdk_app_opts)
    (wl wt : World)
    (hparse : main_loop env argv (getopt_fuel argv) (initial_opts env)
      ((initial_world env).call .spdk_app_opts_init) = some (.finished opts wl))
    (htty : tty_warning env wl = some wt) :
    ∃ wc w, main env argv = some (.ret (env.spdk_app_start wc) w) ∧
      wc.calls = wt.calls ++ [.spdk_app_init (final_opts opts)] ∧
      w.calls = wc.calls ++ [.spdk_app_start .spdk_startup, .spdk_app_fini] ∧
      w.calls.filter Call.is_app =
        [.spdk_app_init (final_opts opts), .spdk_app_start .spdk_startup, .spdk_app_fini] ∧
      (final_opts opts).shutdown_cb = some .spdk_iscsi_shutdown ∧
      (final_opts opts).usr1_handler = some .spdk_sigusr1 ∧
      final_opts opts =
        { opts with shutdown_cb := some .spdk_iscsi_shutdown,
                    usr1_handler := some .spdk_sigusr1 } := by
  have hok : loop_inv env wl :=
    main_loop_ok env argv _ _ _ _ (loop_inv_initial env) hparse
  have hmain : main env argv = some (main_tail env opts wl) := by
    unfold main
    simp only [hparse]
  rw [hmain]
  unfold main_tail
  simp only [htty]
  refine ⟨_, _, rfl, rfl, ?_, ?_, rfl, rfl, rfl⟩
  · simp [World.call, World.print]
  · simp [World.call, World.print, List.filter_append, (tty_warning_ok htty hok.2.2).1,
      Call.is_app]

/-- A run in a build with `DEBUG` whose options are all accepted, with an
operand before them and a start that returns 7. -/
theorem main_runs_app_once_sample :
    ∃ w : World, main (sample_env true 7)
        ["iscsi_tgt", "extra", "-dq", "-t", "all", "-m", "0x3"] = some (.ret 7 w) ∧
      w.calls.filter Call.is_app =
        [.spdk_app_init
            { name := some "iscsi", config_file := some "/usr/local/etc/spdk/iscsi.conf",
              reactor_mask := some "0x3", log_facility := none, tpoint_group_mask := none,
              instance_id := 0, shutdown_cb := some .spdk_iscsi_shutdown,
              usr1_handler := some .spdk_sigusr1, enable_coredump := false,
              dpdk_mem_channel := 0, dpdk_master_core := 0, dpdk_mem_size := 0 },
          .spdk_app_start .spdk_startup, .spdk_app_fini] := by
  have hloop : ∃ o wl wt, main_loop (sample_env true 7)
      ["iscsi_tgt", "extra", "-dq", "-t", "all", "-m", "0x3"]
      (getopt_fuel ["iscsi_tgt", "extra", "-dq", "-t", "all", "-m", "0x3"])
      (initial_opts (sample_env true 7))
      ((initial_world (sample_env true 7)).call .spdk_app_opts_init) = some (.finished o wl) ∧
      tty_warning (sample_env true 7) wl = some wt ∧
      final_opts o =
        { name := some "iscsi", config_file := some "/usr/local/etc/spdk/iscsi.conf",
          reactor_mask := some "0x3", log_facility := none, tpoint_group_mask := none,
          instance_id := 0, shutdown_cb := some .spdk_iscsi_shutdown,
          usr1_handler := some .spdk_sigusr1, enable_coredump := false,
          dpdk_mem_channel := 0, dpdk_master_core := 0, dpdk_mem_size := 0 } :=
    ⟨_, _, _, rfl, rfl, rfl⟩
  obtain ⟨o, wl, wt, hl, ht, ho⟩ := hloop
  obtain ⟨wc, w, hmain, -, -, hcalls, -⟩ :=
    main_runs_app_once (sample_env true 7)
      ["iscsi_tgt", "extra", "-dq", "-t", "all", "-m", "0x3"] o wl wt hl ht
  rw [ho] at hcalls
  exact ⟨w, hmain, hcalls⟩

/-- C8: in an environment where `spdk_g_notice_stderr_flag` is 1, the
standard error is a terminal and `ttyname` returns `NULL`, the run of
`iscsi_tgt` without arguments leaves the option loop without `exit`, passes
the null pointer to `strncmp` and is killed there: none of `spdk_app_init`,
`spdk_app_start`, `spdk_app_fini` is called and `main` does not return. -/
theorem main_null_ttyname_crash :
    null_tty_env.notice_stderr_flag_init = 1 ∧ null_tty_env.isatty_stderr = true ∧
    null_tty_env.ttyname_stderr = none ∧
    main_loop null_tty_env ["iscsi_tgt"] (getopt_fuel ["iscsi_tgt"]) (initial_opts null_tty_env)
        ((initial_world null_tty_env).call .spdk_app_opts_init) =
      some (.finished (initial_opts null_tty_env)
        ((initial_world null_tty_env).call .spdk_app_opts_init)) ∧
    main null_tty_env ["iscsi_tgt"] =
      some (.crash ((initial_world null_tty_env).call .spdk_app_opts_init)) ∧
    (main null_tty_env ["iscsi_tgt"]).map (fun o => o.world.calls) =
      some [.spdk_app_opts_init] ∧
    (∀ rc w, main null_tty_env ["iscsi_tgt"] ≠ some (.ret rc w)) := by
  refine ⟨rfl, rfl, rfl, rfl, rfl, rfl, ?_⟩
  intro rc w h
  have h1 : main null_tty_env ["iscsi_tgt"] =
      some (.crash ((initial_world null_tty_env).call .spdk_app_opts_init)) := rfl
  rw [h1] at h
  cases h

end IscsiTgt

namespace Nvmf

/-! ## The capability table -/

/-- C1: member by member, `struct spdk_nvmf_transport` is the capability
table of the specification: the name, then the eight operations with the
parameters and result shapes the table gives them, and nothing else. -/
theorem spdk_nvmf_transport_is_spec_table :
    spdk_nvmf_transport_members.map spec_entry = spec_capability_table.map some ∧
    spdk_nvmf_transport_members.length = 9 ∧
    (spdk_nvmf_transport_members.filter fun m =>
      match m with
      | .fn_ptr _ _ _ => true
      | .data _ _ => false).length = 8 := by
  decide

/-! ## Registry initialisation -/

section Registry

variable {σ request conn listen_addr entry : Type}

theorem unwind_spec (l : List (Nat × spdk_nvmf_transport σ request conn listen_addr entry)) :
    ∀ st : InitState σ request conn listen_addr entry,
      (unwind l st).live = [] ∧
      (unwind l st).events = st.events ++ l.map fun p => .transport_fini p.1 := by
  induction l with
  | nil => intro st; simp [unwind]
  | cons p rest ih =>
    intro st
    obtain ⟨k, t⟩ := p
    simp only [unwind]
    refine ⟨(ih _).1, ?_⟩
    rw [(ih _).2]
    simp

theorem init_from_fails (t : spdk_nvmf_transport σ request conn listen_addr entry)
    (post : List (spdk_nvmf_transport σ request conn listen_addr entry)) :
    ∀ (pre : List (spdk_nvmf_transport σ request conn listen_addr entry)) (k : Nat)
      (st : InitState σ request conn listen_addr entry) (s1 : σ),
      init_prefix_ok pre st.fabric = some s1 → (t.transport_init s1).1 < 0 →
      (init_from k (pre ++ t :: post) st).1 = (t.transport_init s1).1 ∧
      (init_from k (pre ++ t :: post) st).2.live = [] ∧
      (init_from k (pre ++ t :: post) st).2.events =
        st.events ++ (List.range' k (pre.length + 1)).map .transport_init ++
          ((List.range' k pre.length).reverse.map .transport_fini ++
            st.live.map fun p => .transport_fini p.1) := by
  intro pre
  induction pre with
  | nil =>
    intro k st s1 hpre hfail
    simp only [init_prefix_ok, Option.some.injEq] at hpre
    subst hpre
    have hf : failed (t.transport_init st.fabric).1 = true := by simpa [failed] using hfail
    have e : init_from k ([] ++ t :: post) st =
        ((t.transport_init st.fabric).1,
          unwind st.live { fabric := (t.transport_init st.fabric).2, live := st.live,
                           events := st.events ++ [.transport_init k] }) := by
      simp only [List.nil_append, init_from, hf, if_true]
    rw [e]
    refine ⟨rfl, (unwind_spec _ _).1, ?_⟩
    rw [(unwind_spec _ _).2]
    simp
  | cons p pre ih =>
    intro k st s1 hpre hfail
    simp only [init_prefix_ok] at hpre
    by_cases hp : failed (p.transport_init st.fabric).1 = true
    · simp [hp] at hpre
    · have hp1 : failed (p.transport_init st.fabric).1 = false := by simpa using hp
      simp only [hp1, Bool.false_eq_true, if_false] at hpre
      have e : init_from k (p :: pre ++ t :: post) st =
          init_from (k + 1) (pre ++ t :: post)
            { fabric := (p.transport_init st.fabric).2, live := (k, p) :: st.live,
              events := st.events ++ [.transport_init k] } := by
        simp only [List.cons_append, init_from, hp1, Bool.false_eq_true, if_false]
        rfl
      rw [e]
      obtain ⟨h1, h2, h3⟩ := ih (k + 1)
        { fabric := (p.transport_init st.fabric).2, live := (k, p) :: st.live,
          events := st.events ++ [.transport_init k] } s1 hpre hfail
      refine ⟨h1, h2, ?_⟩
      rw [h3]
      simp [List.range'_succ]

end Registry

/-- C4: when `transport_init` succeeds for the transports `pre` and fails for
the next transport `t`, which is number `k = pre.length + 1` of the
`M = (pre ++ t :: post).length` registered ones, `spdk_nvmf_transport_init`
reports failure, the calls it makes are `transport_init` of the transports
1..k in registration order followed by `transport_fini` of the transports
k-1..1, so `transport_fini` is invoked exactly for 1..k-1 and
`transport_init` is not invoked for k+1..M, and no transport is initialised
afterwards. -/
theorem spdk_nvmf_transport_init_all_or_nothing {σ request conn listen_addr entry : Type}
    (pre post : List (spdk_nvmf_transport σ request conn listen_addr entry))
    (t : spdk_nvmf_transport σ request conn listen_addr entry) (s s1 : σ)
    (hpre : init_prefix_ok pre s = some s1) (hfail : (t.transport_init s1).1 < 0) :
    pre.length + 1 ≤ (pre ++ t :: post).length ∧
    (spdk_nvmf_transport_init (pre ++ t :: post) s).1 < 0 ∧
    (spdk_nvmf_transport_init (pre ++ t :: post) s).2.live = [] ∧
    (spdk_nvmf_transport_init (pre ++ t :: post) s).2.events =
      (List.range' 1 (pre.length + 1)).map .transport_init ++
        (List.range' 1 pre.length).reverse.map .transport_fini ∧
    (∀ j, RegistryEvent.transport_fini j ∈
        (spdk_nvmf_transport_init (pre ++ t :: post) s).2.events ↔ 1 ≤ j ∧ j < pre.length + 1) ∧
    (∀ j, RegistryEvent.transport_init j ∈
        (spdk_nvmf_transport_init (pre ++ t :: post) s).2.events ↔ 1 ≤ j ∧ j ≤ pre.length + 1) ∧
    (spdk_nvmf_transport_init (pre ++ t :: post) s).2.events.Nodup := by
  obtain ⟨h1, h2, h3⟩ := init_from_fails t post pre 1
    { fabric := s, live := [], events := [] } s1 hpre hfail
  have hev : (spdk_nvmf_transport_init (pre ++ t :: post) s).2.events =
      (List.range' 1 (pre.length + 1)).map .transport_init ++
        (List.range' 1 pre.length).reverse.map .transport_fini := by
    unfold spdk_nvmf_transport_init
    rw [h3]
    simp
  refine ⟨by simp, ?_, h2, hev, ?_, ?_, ?_⟩
  · unfold spdk_nvmf_transport_init
    rw [h1]
    exact hfail
  · intro j
    rw [hev]
    simp only [List.mem_append, List.mem_map, List.mem_reverse, List.mem_range'_1,
      RegistryEvent.transport_fini.injEq, RegistryEvent.transport_init.injEq, exists_eq_right,
      reduceCtorEq, and_false, exists_false, or_false, false_or]
    omega
  · intro j
    rw [hev]
    simp only [List.mem_append, List.mem_map, List.mem_reverse, List.mem_range'_1,
      RegistryEvent.transport_fini.injEq, RegistryEvent.transport_init.injEq, exists_eq_right,
      reduceCtorEq, and_false, exists_false, or_false, false_or]
    omega
  · rw [hev]
    rw [List.nodup_append]
    refine ⟨?_, ?_, ?_⟩
    · exact (List.nodup_range' 1 _).map (fun a b h => by cases h; rfl)
    · exact (List.nodup_reverse.mpr (List.nodup_range' 1 _)).map (fun a b h => by cases h; rfl)
    · intro e h1 h2
      simp only [List.mem_map] at h1 h2
      obtain ⟨a, -, rfl⟩ := h1
      obtain ⟨b, -, hb⟩ := h2
      cases hb

/-- Three transports of which the second fails to initialise. -/
theorem spdk_nvmf_transport_init_all_or_nothing_witness :
    init_prefix_ok [sample_transport "stream-target" 0] [] =
      some ["stream-target.transport_init"] ∧
    ((sample_transport "fabric-target" (-5)).transport_init
      ["stream-target.transport_init"]).1 < 0 ∧
    (spdk_nvmf_transport_init
      [sample_transport "stream-target" 0, sample_transport "fabric-target" (-5),
        sample_transport "third" 0] []).2.events =
      [.transport_init 1, .transport_init 2, .transport_fini 1] ∧
    (spdk_nvmf_transport_init
      [sample_transport "stream-target" 0, sample_transport "fabric-target" (-5),
        sample_transport "third" 0] []).2.live = [] :=
  have h := spdk_nvmf_transport_init_all_or_nothing
    [sample_transport "stream-target" 0] [sample_transport "third" 0]
    (sample_transport "fabric-target" (-5)) [] ["stream-target.transport_init"] rfl (by decide)
  ⟨rfl, by decide, h.2.2.2.1, h.2.2.1⟩

/-! ## Completion -/

theorem req_complete_terminal (ok : Bool) (req : Request) (p : Pipeline) :
    (req_complete ok req p).2.1.status.terminal = true := by
  unfold req_complete
  by_cases h : req.status.terminal = true
  · simp [h]
  · have h1 : req.status.terminal = false := by simpa using h
    cases ok <;> simp only [h1, Bool.false_eq_true, if_false, if_true] <;> rfl

theorem req_complete_all_rejected (oks : List Bool) :
    ∀ (req : Request) (p : Pipeline), req.status.terminal = true →
      (req_complete_all oks req p).1 = oks.map (fun _ => -1) ∧
      (req_complete_all oks req p).2.1 = req ∧
      (req_complete_all oks req p).2.2.delivered = p.delivered ∧
      (req_complete_all oks req p).2.2.log.length = p.log.length + oks.length := by
  induction oks with
  | nil => intro req p _; simp [req_complete_all]
  | cons ok oks ih =>
    intro req p h
    have e : req_complete ok req p =
        (-1, req, { p with log := p.log ++ ["req_complete: request already completed"] }) := by
      simp [req_complete, h]
    simp only [req_complete_all, e]
    obtain ⟨h1, h2, h3, h4⟩ := ih req
      { p with log := p.log ++ ["req_complete: request already completed"] } h
    refine ⟨by rw [h1]; rfl, h2, h3, ?_⟩
    rw [h4]
    simp
    omega

/-- C5: for every request and every sequence of invocations of
`req_complete` on it, the first invocation delivers the completion
notification once (none when the request was terminal already) and leaves the
request terminal; every later invocation returns a negative status, is
logged, delivers nothing and leaves the request, its status included, as the
first invocation left it. At most one notification is delivered in all. -/
theorem req_complete_at_most_once (ok : Bool) (oks : List Bool) (req : Request) (p : Pipeline) :
    (req_complete ok req p).2.1.status.terminal = true ∧
    (req_complete ok req p).2.2.delivered =
      p.delivered ++
        (if req.status.terminal then [] else [(req.id, (req_complete ok req p).2.1.status)]) ∧
    (req_complete_all (ok :: oks) req p).1 =
      (req_complete ok req p).1 :: oks.map (fun _ => -1) ∧
    (∀ rc ∈ (req_complete_all (ok :: oks) req p).1.tail, failed rc = true) ∧
    (req_complete_all (ok :: oks) req p).2.1 = (req_complete ok req p).2.1 ∧
    (req_complete_all (ok :: oks) req p).2.2.delivered = (req_complete ok req p).2.2.delivered ∧
    (req_complete_all (ok :: oks) req p).2.2.log.length =
      (req_complete ok req p).2.2.log.length + oks.length ∧
    (req_complete_all (ok :: oks) req p).2.2.delivered.length ≤ p.delivered.length + 1 := by
  have hterm := req_complete_terminal ok req p
  obtain ⟨h1, h2, h3, h4⟩ := req_complete_all_rejected oks _ (req_complete ok req p).2.2 hterm
  have hdel : (req_complete ok req p).2.2.delivered =
      p.delivered ++
        (if req.status.terminal then []
          else [(req.id, (req_complete ok req p).2.1.status)]) := by
    unfold req_complete
    by_cases h : req.status.terminal = true
    · simp [h]
    · simp [h]
  refine ⟨hterm, hdel, ?_, ?_, h2, h3, h4, ?_⟩
  · simp only [req_complete_all, h1]
  · simp only [req_complete_all, h1, List.tail_cons]
    intro rc hrc
    simp only [List.mem_map] at hrc
    obtain ⟨_, -, rfl⟩ := hrc
    decide
  · simp only [req_complete_all, h3, hdel]
    split <;> simp

end Nvmf
